import Mathlib

/-!
Verification of the broken-record-store API's consistency and resilience core.

The definitions below are a shallow embedding of the TypeScript services:
  * `OrderService` (createOrder, getOrderById, getAllOrders),
  * `RetryService` (executeWithRetry, isRetryableError, calculateDelay,
    createHttpException),
  * `RecordService` (create, update, attachProviderDataToRecord, findAll
    cache handling, invalidateRecordsCache).

JavaScript numbers are modelled as `Int` (the claims under scrutiny concern
integer quantities and integer millisecond budgets); the jitter sample drawn
from Math.random() is modelled as an explicit rational parameter in [0, 1).
MongoDB object ids assigned by the store, timestamps, and logging are not
modelled; fallible operations are modelled with `Except`.
-/

namespace BrokenRecordStore

/-- Track subdocument of a record, from record.schema.ts (all fields optional). -/
structure Track where
  id : Option String := none
  title : Option String := none
  position : Option String := none
  number : Option String := none
  length : Option String := none
deriving Repr, DecidableEq

/-- Record document, from record.schema.ts.  `format` and `category` are enum
strings in the source; they are modelled as plain strings. -/
structure RecordDoc where
  artist : String
  album : String
  price : Int
  qty : Int
  format : String
  category : String
  mbid : Option String := none
  tracklist : List Track := []
deriving Repr, DecidableEq

/-- Order document, from order.schema.ts (recordId, quantity, status). -/
structure OrderDoc where
  recordId : String
  quantity : Int
  status : String
deriving Repr, DecidableEq

/-- OrderResponseDTO from order-response.dto.ts.  The Mongo-assigned `_id`
string is not modelled. -/
structure OrderResponseDTO where
  recordId : String
  quantity : Int
  status : String
  availableQuantity : Int
  sufficientStock : Bool
deriving Repr, DecidableEq

/-- The NestJS exception taxonomy used by the services: BadRequestException,
NotFoundException, ConflictException, a generic HttpException carrying an
HTTP status, and InternalServerErrorException. -/
inductive ServiceError where
  | badRequest (message : String)
  | notFound (message : String)
  | conflict (message : String)
  | httpError (status : Nat) (message : String)
  | internal (message : String)
deriving Repr, DecidableEq

/-- HTTP status carried by each NestJS exception class. -/
def statusOfError : ServiceError → Nat
  | .badRequest _ => 400
  | .notFound _ => 404
  | .conflict _ => 409
  | .httpError s _ => s
  | .internal _ => 500

/-- The slice of database state touched by OrderService.createOrder: the
record addressed by the request (none when no such record exists) and the
list of persisted orders. -/
structure OrderState where
  record : Option RecordDoc
  orders : List OrderDoc
deriving Repr, DecidableEq

/-- OrderService.createOrder from order.service.ts, transactional path.
`validObjectId` models `Types.ObjectId.isValid(createOrderDto.recordId)`.
All failure branches abort the transaction, so they return the state
unchanged; the success branch commits the saved order and the `$inc` of
`qty` by `-quantity` together. -/
def createOrder (validObjectId : Bool) (recordId : String) (quantity : Int)
    (st : OrderState) : Except ServiceError OrderResponseDTO × OrderState :=
  if !validObjectId then
    (.error (.badRequest ("Invalid record ID format: " ++ recordId)), st)
  else
    match st.record with
    | none =>
        (.error (.notFound ("Record with ID " ++ recordId ++ " not found")), st)
    | some record =>
        if record.qty < quantity then
          (.error (.badRequest ("Insufficient stock. Available: "
              ++ toString record.qty ++ ", Requested: " ++ toString quantity)), st)
        else
          let availableQuantity := record.qty
          let order : OrderDoc :=
            { recordId := recordId, quantity := quantity, status := "pending" }
          let updated : RecordDoc := { record with qty := record.qty - quantity }
          (.ok { recordId := recordId, quantity := quantity, status := "pending",
                 availableQuantity := availableQuantity, sufficientStock := true },
           { record := some updated, orders := st.orders ++ [order] })

/-- Response mapping shared by OrderService.getAllOrders and
OrderService.getOrderById: `availableQuantity` is the literal 0 and
`sufficientStock` the literal true. -/
def orderToResponse (o : OrderDoc) : OrderResponseDTO :=
  { recordId := o.recordId, quantity := o.quantity, status := o.status,
    availableQuantity := 0, sufficientStock := true }

/-- OrderService.getAllOrders from order.service.ts. -/
def getAllOrders (orders : List OrderDoc) : List OrderResponseDTO :=
  orders.map orderToResponse

/-- OrderService.getOrderById from order.service.ts.  `validObjectId` models
`Types.ObjectId.isValid(orderId)`; `lookup` is the findById result. -/
def getOrderById (validObjectId : Bool) (orderId : String)
    (lookup : Option OrderDoc) : Except ServiceError OrderResponseDTO :=
  if !validObjectId then
    .error (.badRequest ("Invalid order ID format: " ++ orderId))
  else
    match lookup with
    | none => .error (.notFound ("Order with ID " ++ orderId ++ " not found"))
    | some o => .ok (orderToResponse o)

/-- ApiRetryConfig from retry.service.ts: both fields optional. -/
structure ApiRetryConfig where
  maxAttempts : Option Nat := none
  maxDuration : Option Int := none
deriving Repr, DecidableEq

/-- RetryService.mergeConfig: defaults maxAttempts to 3 and maxDuration to
30000 ms. -/
def mergeConfig (config : ApiRetryConfig) : Nat × Int :=
  (config.maxAttempts.getD 3, config.maxDuration.getD 30000)

/-- Shape of the raw JavaScript errors inspected by RetryService:
`error.code`, `error.response?.status`, and `error.message`. -/
structure JsError where
  code : Option String := none
  responseStatus : Option Nat := none
  message : Option String := none
deriving Repr, DecidableEq

/-- String containment, modelling JavaScript String.prototype.includes:
splitting on a non-empty needle yields at least two pieces exactly when the
needle occurs. -/
def occursIn (needle haystack : String) : Bool :=
  2 ≤ (haystack.splitOn needle).length

/-- The transport error codes RetryService.isRetryableError retries on. -/
def retryableCodes : List String :=
  ["ECONNREFUSED", "ECONNRESET", "ETIMEDOUT", "EHOSTUNREACH", "ENETUNREACH",
   "ENOTFOUND"]

/-- The HTTP statuses RetryService.isRetryableError retries on. -/
def retryableStatuses : List Nat := [408, 429, 502, 503, 504]

/-- RetryService.isRetryableError from retry.service.ts. -/
def isRetryableError (e : JsError) : Bool :=
  (match e.code with
   | some c => retryableCodes.contains c
   | none => false)
  || (match e.responseStatus with
      | some s => retryableStatuses.contains s
      | none => false)
  || (match e.message with
      | some m => occursIn "timeout" m.toLower
      | none => false)

/-- RetryService.calculateDelay from retry.service.ts.  The Math.random()
sample is the explicit parameter `u`; callers constrain it to [0, 1).
The exponential base is computed, jitter `u * delay * 0.1` is added, the sum
is capped at 10000, and if the capped delay still exceeds the remaining
duration the (integer) remaining duration floored at 0 is returned,
otherwise the floor of the capped delay. -/
def calculateDelay (attempt : Nat) (remainingDuration : Int) (u : ℚ) : Int :=
  let delay0 : ℚ := 1000 * 2 ^ (attempt - 1)
  let jitter : ℚ := u * delay0 * (1 / 10)
  let delay1 : ℚ := delay0 + jitter
  let delay2 : ℚ := min delay1 10000
  if (remainingDuration : ℚ) < delay2 then max 0 remainingDuration
  else ⌊delay2⌋

/-- The HttpException body built by RetryService.createHttpException. -/
structure HttpExceptionBody where
  statusCode : Nat
  message : String
  service : String
deriving Repr, DecidableEq

/-- RetryService.createHttpException from retry.service.ts: preserves
`error.response.status` when present; otherwise maps ECONNREFUSED,
ETIMEDOUT and EHOSTUNREACH to 503 and everything else to 500. -/
def createHttpException (e : JsError) (serviceName : String) :
    HttpExceptionBody :=
  let statusCode : Nat :=
    match e.responseStatus with
    | some s => s
    | none =>
        if e.code = some "ECONNREFUSED" || e.code = some "ETIMEDOUT"
            || e.code = some "EHOSTUNREACH" then 503
        else 500
  { statusCode := statusCode,
    message := "Failed to connect to " ++ serviceName,
    service := serviceName }

/-- The attempt loop of RetryService.executeWithRetry.  `op k` is the outcome
of the k-th invocation of the operation (1-indexed), `elapsed k` the value of
`Date.now() - startTime` observed after the k-th invocation fails, and
`jit k` the Math.random() sample drawn for the delay after attempt k.  The
returned `Nat` is the number of invocations performed.  `fuel` counts the
loop iterations still allowed and starts at `maxAttempts`; the fuel-0 case is
the throw after the loop, unreachable whenever `maxAttempts ≥ 1`. -/
def executeFrom {α : Type} (op : Nat → Except JsError α) (elapsed : Nat → Int)
    (jit : Nat → ℚ) (maxAttempts : Nat) (maxDuration : Int)
    (serviceName : String) : Nat → Nat → Except HttpExceptionBody α × Nat
  | attempt, 0 => (.error (createHttpException {} serviceName), attempt - 1)
  | attempt, fuel + 1 =>
      match op attempt with
      | .ok v => (.ok v, attempt)
      | .error e =>
          if !isRetryableError e || attempt == maxAttempts then
            (.error (createHttpException e serviceName), attempt)
          else
            let elapsedTime := elapsed attempt
            let delay :=
              calculateDelay attempt (maxDuration - elapsedTime) (jit attempt)
            if delay ≤ 0 then
              (.error (createHttpException e serviceName), attempt)
            else
              executeFrom op elapsed jit maxAttempts maxDuration serviceName
                (attempt + 1) fuel

/-- RetryService.executeWithRetry from retry.service.ts, with the operation,
clock and jitter samples passed explicitly. -/
def executeWithRetry {α : Type} (op : Nat → Except JsError α)
    (elapsed : Nat → Int) (jit : Nat → ℚ) (serviceName : String)
    (config : ApiRetryConfig) : Except HttpExceptionBody α × Nat :=
  let finalConfig := mergeConfig config
  executeFrom op elapsed jit finalConfig.1 finalConfig.2 serviceName 1
    finalConfig.1

/-- Media part of a MusicBrainz release, as consumed by RecordService
(`release.media?.format`, `release.media?.tracks`). -/
structure ReleaseMedia where
  format : Option String := none
  tracks : Option (List Track) := none
deriving Repr, DecidableEq

/-- MusicBrainz release as consumed by RecordService. -/
structure Release where
  title : String
  genre : String
  media : Option ReleaseMedia := none
deriving Repr, DecidableEq

/-- Outcome of `musicBrainzService.getReleaseById` as observed by
RecordService: a release, an HttpException carrying a provider status, or
any other thrown value. -/
inductive ProviderOutcome where
  | success (release : Release)
  | httpFailure (status : Nat)
  | otherFailure
deriving Repr, DecidableEq

/-- The field overrides both RecordService.attachProviderDataToRecord and
RecordService.update apply on a successful provider fetch: album, category,
format (only when `release.media?.format` is present) and tracklist
(`release.media?.tracks || []`). -/
def applyProviderData (release : Release) (record : RecordDoc) : RecordDoc :=
  let record := { record with album := release.title, category := release.genre }
  let record :=
    match release.media with
    | some m =>
        match m.format with
        | some f => { record with format := f }
        | none => record
    | none => record
  { record with
    tracklist :=
      match release.media with
      | some m => m.tracks.getD []
      | none => [] }

/-- RecordService.attachProviderDataToRecord from record.service.ts: on
provider success the record is enriched; an HttpException from the provider
is re-thrown as an HttpException with the provider's status; any other
failure becomes InternalServerErrorException. -/
def attachProviderDataToRecord (provider : ProviderOutcome)
    (record : RecordDoc) : Except ServiceError RecordDoc :=
  match provider with
  | .success release => .ok (applyProviderData release record)
  | .httpFailure s =>
      .error (.httpError s
        "Failed to fetch data from MusicBrainz. Try again later.")
  | .otherFailure => .error (.internal "Failed to fetch MBID data")

/-- The catch clause of RecordService.create: NotFoundException,
BadRequestException and ConflictException are re-thrown unchanged; every
other error (generic HttpException included) is wrapped as
InternalServerErrorException. -/
def createWrapError (e : ServiceError) : ServiceError :=
  match e with
  | .notFound m => .notFound m
  | .badRequest m => .badRequest m
  | .conflict m => .conflict m
  | .httpError _ m => .internal ("Failed to create record: " ++ m)
  | .internal m => .internal ("Failed to create record: " ++ m)

/-- Result of RecordService.create: the value returned or error thrown, and
the list of records actually written to the store by the call. -/
structure CreateOutcome where
  result : Except ServiceError RecordDoc
  persisted : List RecordDoc
deriving Repr

/-- RecordService.create from record.service.ts, with the duplicate-identity
lookup result and the provider outcome passed explicitly.  `dto` carries the
caller-supplied fields; the base object starts with an empty tracklist.  The
enrichment runs before `recordModel.create`, so an enrichment failure leaves
nothing persisted, and the catch clause wraps it via `createWrapError`. -/
def create (existing : Option RecordDoc) (provider : ProviderOutcome)
    (dto : RecordDoc) : CreateOutcome :=
  let body : Except ServiceError RecordDoc :=
    match existing with
    | some _ =>
        .error (.conflict "Record with these identifiers already exists")
    | none =>
        let base : RecordDoc := { dto with tracklist := [] }
        match dto.mbid with
        | some _ => attachProviderDataToRecord provider base
        | none => .ok base
  match body with
  | .ok created => { result := .ok created, persisted := [created] }
  | .error e => { result := .error (createWrapError e), persisted := [] }

/-- UpdateRecordRequestDTO: every field optional. -/
structure UpdateDto where
  mbid : Option String := none
  artist : Option String := none
  album : Option String := none
  price : Option Int := none
  qty : Option Int := none
  format : Option String := none
  category : Option String := none
deriving Repr, DecidableEq

/-- The updatable-fields loop of RecordService.update: artist, album, price,
qty, format and category are copied from the DTO when defined, except that
album, category and format are skipped whenever the DTO carries an mbid
(those come from the provider). -/
def applyUpdatableFields (dto : UpdateDto) (r : RecordDoc) : RecordDoc :=
  let skipProviderFields := dto.mbid.isSome
  let r := match dto.artist with | some a => { r with artist := a } | none => r
  let r :=
    if skipProviderFields then r
    else match dto.album with | some a => { r with album := a } | none => r
  let r := match dto.price with | some p => { r with price := p } | none => r
  let r := match dto.qty with | some q => { r with qty := q } | none => r
  let r :=
    if skipProviderFields then r
    else match dto.format with | some f => { r with format := f } | none => r
  if skipProviderFields then r
  else match dto.category with | some c => { r with category := c } | none => r

/-- Result of RecordService.update: the value returned or error thrown, and
the list of records saved by the call. -/
structure UpdateOutcome where
  result : Except ServiceError RecordDoc
  saved : List RecordDoc
deriving Repr

/-- RecordService.update from record.service.ts.  When the DTO carries an
mbid different from the stored one, the provider is consulted: on success
the provider fields override and the mbid is updated; an HttpException is
re-thrown with the provider's status and any other failure becomes
InternalServerErrorException.  Unlike create, update has no surrounding
catch, so these errors propagate to the caller unchanged, before
`record.save()` runs. -/
def update (recordLookup : Option RecordDoc) (provider : ProviderOutcome)
    (dto : UpdateDto) : UpdateOutcome :=
  match recordLookup with
  | none => { result := .error (.notFound "Record not found"), saved := [] }
  | some record0 =>
      let enriched : Except ServiceError RecordDoc :=
        match dto.mbid with
        | some newMbid =>
            if record0.mbid ≠ some newMbid then
              match provider with
              | .success release =>
                  .ok { applyProviderData release record0 with
                        mbid := some newMbid }
              | .httpFailure s =>
                  .error (.httpError s "Failed to fetch data from MusicBrainz")
              | .otherFailure =>
                  .error (.internal "Failed to fetch MBID data")
            else .ok record0
        | none => .ok record0
      match enriched with
      | .error e => { result := .error e, saved := [] }
      | .ok record1 =>
          let record2 := applyUpdatableFields dto record1
          { result := .ok record2, saved := [record2] }

/-- Internal failure of a cache-store operation. -/
inductive CacheFailure where
  | failure (message : String)
deriving Repr, DecidableEq

/-- RecordService.invalidateRecordsCache from record.service.ts: the whole
body (key enumeration, deletions, or full reset) sits in a try block whose
catch clause ignores the error, so the call always resolves. -/
def invalidateRecordsCache (storeCalls : Except CacheFailure Unit) :
    Except CacheFailure Unit :=
  match storeCalls with
  | .ok _ => .ok ()
  | .error _ => .ok ()

/-- The cache handling of RecordService.findAll: the cache read sits in a
try block whose catch ignores the failure and falls through to the
repository; a cache hit returns the cached value; the repository result is
computed otherwise and the cache write sits in its own try block whose catch
only logs. -/
def findAllWithCache {α : Type} (cacheGet : Except CacheFailure (Option α))
    (repo : Except ServiceError α) (cacheSet : Except CacheFailure Unit) :
    Except ServiceError α :=
  let cached : Option α :=
    match cacheGet with
    | .ok c => c
    | .error _ => none
  match cached with
  | some v => .ok v
  | none =>
      match repo with
      | .error e => .error e
      | .ok result =>
          let _ : Unit :=
            match cacheSet with
            | .ok u => u
            | .error _ => ()
          .ok result

/-- The post-commit cache invalidation in RecordService.create and
RecordService.update: the call to invalidateRecordsCache is itself wrapped
in a try block whose catch only logs, so a successful write returns its
value regardless of the invalidation outcome. -/
def writeThenInvalidate {α : Type} (writeResult : Except ServiceError α)
    (invalidation : Except CacheFailure Unit) : Except ServiceError α :=
  match writeResult with
  | .error e => .error e
  | .ok v =>
      let _ : Unit :=
        match invalidateRecordsCache invalidation with
        | .ok u => u
        | .error _ => ()
      .ok v

/-- A concrete record used by the concrete witness instantiations. -/
def sampleRecord : RecordDoc :=
  { artist := "The Beatles", album := "Abbey Road", price := 30, qty := 10,
    format := "Vinyl", category := "Rock" }

/-- Claim C1: for every existing record with quantity-on-hand qty_before and
every requested quantity n with n ≤ qty_before, createOrder succeeds, the
record's qty afterwards equals qty_before - n, and the returned order has
status "pending" with availableQuantity equal to the pre-decrement
qty_before. -/
theorem createOrder_sufficient_stock (st : OrderState) (r : RecordDoc)
    (rid : String) (n : Int) (hr : st.record = some r) (hq : n ≤ r.qty) :
    (createOrder true rid n st).1 =
      .ok { recordId := rid, quantity := n, status := "pending",
            availableQuantity := r.qty, sufficientStock := true }
    ∧ (createOrder true rid n st).2.record =
        some { r with qty := r.qty - n } := by
  have hlt : ¬ r.qty < n := not_lt.mpr hq
  constructor <;> simp [createOrder, hr, hlt]

/-- Witness for C1 at a concrete input: record with qty 10, order of 5. -/
theorem createOrder_sufficient_stock_witness :
    (createOrder true "507f1f77bcf86cd799439011" 5
        { record := some sampleRecord, orders := [] }).1 =
      .ok { recordId := "507f1f77bcf86cd799439011", quantity := 5,
            status := "pending", availableQuantity := 10,
            sufficientStock := true }
    ∧ (createOrder true "507f1f77bcf86cd799439011" 5
        { record := some sampleRecord, orders := [] }).2.record =
        some { sampleRecord with qty := 5 } :=
  createOrder_sufficient_stock { record := some sampleRecord, orders := [] }
    sampleRecord "507f1f77bcf86cd799439011" 5 rfl (by decide)

/-- Claim C2: for every existing record and every requested quantity strictly
greater than the record's current qty, createOrder fails with the
insufficient-stock BadRequest whose message states the available and
requested amounts, and the state (record qty and order list) is unchanged. -/
theorem createOrder_insufficient_stock (st : OrderState) (r : RecordDoc)
    (rid : String) (n : Int) (hr : st.record = some r) (hq : r.qty < n) :
    (createOrder true rid n st).1 =
      .error (.badRequest ("Insufficient stock. Available: "
        ++ toString r.qty ++ ", Requested: " ++ toString n))
    ∧ (createOrder true rid n st).2 = st := by
  constructor <;> simp [createOrder, hr, hq]

/-- Witness for C2 at a concrete input: record with qty 10, order of 11. -/
theorem createOrder_insufficient_stock_witness :
    (createOrder true "507f1f77bcf86cd799439011" 11
        { record := some sampleRecord, orders := [] }).1 =
      .error (.badRequest "Insufficient stock. Available: 10, Requested: 11")
    ∧ (createOrder true "507f1f77bcf86cd799439011" 11
        { record := some sampleRecord, orders := [] }).2 =
        { record := some sampleRecord, orders := [] } :=
  createOrder_insufficient_stock { record := some sampleRecord, orders := [] }
    sampleRecord "507f1f77bcf86cd799439011" 11 rfl (by decide)

/-- Claim C9: a negative requested quantity (-1) passes the stock check for
any existing record with nonnegative qty, the order is created and committed,
and the unconditional decrement strictly increases the record's stock. -/
theorem createOrder_negative_quantity_increases_stock (st : OrderState)
    (r : RecordDoc) (rid : String) (hr : st.record = some r)
    (h0 : 0 ≤ r.qty) :
    (createOrder true rid (-1) st).1 =
      .ok { recordId := rid, quantity := -1, status := "pending",
            availableQuantity := r.qty, sufficientStock := true }
    ∧ (createOrder true rid (-1) st).2.record =
        some { r with qty := r.qty + 1 }
    ∧ (createOrder true rid (-1) st).2.orders =
        st.orders ++ [{ recordId := rid, quantity := -1, status := "pending" }]
    ∧ r.qty < r.qty + 1 := by
  have hlt : ¬ r.qty < -1 := by omega
  refine ⟨?_, ?_, ?_, by omega⟩ <;>
    simp [createOrder, hr, hlt, sub_neg_eq_add]

/-- Witness for C9 at a concrete input: record with qty 10, quantity -1. -/
theorem createOrder_negative_quantity_increases_stock_witness :
    (createOrder true "507f1f77bcf86cd799439011" (-1)
        { record := some sampleRecord, orders := [] }).1 =
      .ok { recordId := "507f1f77bcf86cd799439011", quantity := -1,
            status := "pending", availableQuantity := 10,
            sufficientStock := true }
    ∧ (createOrder true "507f1f77bcf86cd799439011" (-1)
        { record := some sampleRecord, orders := [] }).2.record =
        some { sampleRecord with qty := 11 }
    ∧ (createOrder true "507f1f77bcf86cd799439011" (-1)
        { record := some sampleRecord, orders := [] }).2.orders =
        [{ recordId := "507f1f77bcf86cd799439011", quantity := -1,
           status := "pending" }]
    ∧ (10 : Int) < 10 + 1 :=
  createOrder_negative_quantity_increases_stock
    { record := some sampleRecord, orders := [] } sampleRecord
    "507f1f77bcf86cd799439011" rfl (by decide)

/-- Claim C10: the read operations always report availableQuantity = 0 and
sufficientStock = true, for every stored order, regardless of its quantity:
getAllOrders maps every order that way, and getOrderById returns exactly the
order's fields with availableQuantity 0 and sufficientStock true. -/
theorem order_read_response_constants :
    (∀ orders : List OrderDoc,
        (getAllOrders orders).all
          (fun resp => resp.availableQuantity == 0 && resp.sufficientStock)
          = true)
    ∧ (∀ (orderId : String) (o : OrderDoc),
        getOrderById true orderId (some o) =
          .ok { recordId := o.recordId, quantity := o.quantity,
                status := o.status, availableQuantity := 0,
                sufficientStock := true }) := by
  constructor
  · intro orders
    simp [getAllOrders, orderToResponse, List.all_eq_true]
  · intro orderId o
    rfl

/-- Unfolding: a successful invocation returns immediately with the attempt
count. -/
theorem executeFrom_ok {α : Type} (op : Nat → Except JsError α)
    (elapsed : Nat → Int) (jit : Nat → ℚ) (mA : Nat) (mD : Int) (svc : String)
    (attempt fuel : Nat) (v : α) (hop : op attempt = .ok v) :
    executeFrom op elapsed jit mA mD svc attempt (fuel + 1) =
      (.ok v, attempt) := by
  simp [executeFrom, hop]

/-- Unfolding: a non-retryable failure throws immediately with the attempt
count. -/
theorem executeFrom_fatal {α : Type} (op : Nat → Except JsError α)
    (elapsed : Nat → Int) (jit : Nat → ℚ) (mA : Nat) (mD : Int) (svc : String)
    (attempt fuel : Nat) (e : JsError) (hop : op attempt = .error e)
    (hre : isRetryableError e = false) :
    executeFrom op elapsed jit mA mD svc attempt (fuel + 1) =
      (.error (createHttpException e svc), attempt) := by
  simp [executeFrom, hop, hre]

/-- Unfolding: a retryable failure on a non-final attempt with a positive
computed delay proceeds to the next attempt. -/
theorem executeFrom_retry {α : Type} (op : Nat → Except JsError α)
    (elapsed : Nat → Int) (jit : Nat → ℚ) (mA : Nat) (mD : Int) (svc : String)
    (attempt fuel : Nat) (e : JsError) (hop : op attempt = .error e)
    (hre : isRetryableError e = true) (hne : (attempt == mA) = false)
    (hd : 0 < calculateDelay attempt (mD - elapsed attempt) (jit attempt)) :
    executeFrom op elapsed jit mA mD svc attempt (fuel + 1) =
      executeFrom op elapsed jit mA mD svc (attempt + 1) fuel := by
  have hd' : ¬ calculateDelay attempt (mD - elapsed attempt) (jit attempt) ≤ 0 :=
    not_le.mpr hd
  simp [executeFrom, hop, hre, hne, hd']

/-- The computed delay is positive whenever the jitter sample is nonnegative
and at least one millisecond of budget remains. -/
theorem calculateDelay_pos (attempt : Nat) (remaining : Int) (u : ℚ)
    (hu : 0 ≤ u) (hr : 1 ≤ remaining) :
    0 < calculateDelay attempt remaining u := by
  have h2 : (1 : ℚ) ≤ 2 ^ (attempt - 1) := by
    simpa using
      pow_le_pow_right₀ (by norm_num : (1 : ℚ) ≤ 2) (Nat.zero_le (attempt - 1))
  have hd0 : (1000 : ℚ) ≤ 1000 * 2 ^ (attempt - 1) :=
    le_mul_of_one_le_right (by norm_num) h2
  have hjit : 0 ≤ u * (1000 * 2 ^ (attempt - 1)) * (1 / 10) :=
    mul_nonneg (mul_nonneg hu (by linarith)) (by norm_num)
  have hd2 : (1000 : ℚ) ≤
      min (1000 * 2 ^ (attempt - 1)
        + u * (1000 * 2 ^ (attempt - 1)) * (1 / 10)) 10000 :=
    le_min (by linarith) (by norm_num)
  have hcalc : calculateDelay attempt remaining u =
      (if (remaining : ℚ) <
          min (1000 * 2 ^ (attempt - 1)
            + u * (1000 * 2 ^ (attempt - 1)) * (1 / 10)) 10000
       then max 0 remaining
       else ⌊min (1000 * 2 ^ (attempt - 1)
            + u * (1000 * 2 ^ (attempt - 1)) * (1 / 10)) 10000⌋) := rfl
  rw [hcalc]
  by_cases hc : (remaining : ℚ) <
      min (1000 * 2 ^ (attempt - 1)
        + u * (1000 * 2 ^ (attempt - 1)) * (1 / 10)) 10000
  · rw [if_pos hc]
    omega
  · rw [if_neg hc]
    have h1 : (1 : ℤ) ≤
        ⌊min (1000 * 2 ^ (attempt - 1)
          + u * (1000 * 2 ^ (attempt - 1)) * (1 / 10)) 10000⌋ :=
      Int.le_floor.mpr (by push_cast; linarith)
    omega

/-- Claim C5: with the default configuration (maxAttempts = 3), an operation
that fails retryably twice and succeeds on the third call is invoked exactly
3 times and its success is returned, provided the jitter samples are
nonnegative and at least 1 ms of the 30000 ms budget remains after each
failure; and an operation whose first failure is not retryable is invoked
exactly once and the classified failure is raised without any retry. -/
theorem retry_invocation_counts :
    (∀ (α : Type) (op : Nat → Except JsError α) (elapsed : Nat → Int)
        (jit : Nat → ℚ) (svc : String) (e1 e2 : JsError) (v : α),
        op 1 = .error e1 → op 2 = .error e2 → op 3 = .ok v →
        isRetryableError e1 = true → isRetryableError e2 = true →
        0 ≤ jit 1 → 0 ≤ jit 2 →
        1 ≤ 30000 - elapsed 1 → 1 ≤ 30000 - elapsed 2 →
        executeWithRetry op elapsed jit svc {} = (.ok v, 3))
    ∧ (∀ (α : Type) (op : Nat → Except JsError α) (elapsed : Nat → Int)
        (jit : Nat → ℚ) (svc : String) (e : JsError),
        op 1 = .error e → isRetryableError e = false →
        executeWithRetry op elapsed jit svc {} =
          (.error (createHttpException e svc), 1)) := by
  constructor
  · intro α op elapsed jit svc e1 e2 v h1 h2 h3 hre1 hre2 hj1 hj2 ht1 ht2
    have hd1 : 0 < calculateDelay 1 (30000 - elapsed 1) (jit 1) :=
      calculateDelay_pos 1 _ _ hj1 ht1
    have hd2 : 0 < calculateDelay 2 (30000 - elapsed 2) (jit 2) :=
      calculateDelay_pos 2 _ _ hj2 ht2
    show executeFrom op elapsed jit 3 30000 svc 1 (2 + 1) = (.ok v, 3)
    rw [executeFrom_retry op elapsed jit 3 30000 svc 1 2 e1 h1 hre1 rfl hd1]
    show executeFrom op elapsed jit 3 30000 svc 2 (1 + 1) = (.ok v, 3)
    rw [executeFrom_retry op elapsed jit 3 30000 svc 2 1 e2 h2 hre2 rfl hd2]
    show executeFrom op elapsed jit 3 30000 svc 3 (0 + 1) = (.ok v, 3)
    rw [executeFrom_ok op elapsed jit 3 30000 svc 3 0 v h3]
  · intro α op elapsed jit svc e h1 hre
    show executeFrom op elapsed jit 3 30000 svc 1 (2 + 1) =
      (.error (createHttpException e svc), 1)
    rw [executeFrom_fatal op elapsed jit 3 30000 svc 1 2 e h1 hre]

/-- Witness for C5 at concrete inputs: two ECONNRESET failures then success,
and a single 404 failure. -/
theorem retry_invocation_counts_witness :
    executeWithRetry
        (fun k => if k = 3 then .ok 7 else .error { code := some "ECONNRESET" })
        (fun _ => 0) (fun _ => 0) "MusicBrainz" {} = (.ok 7, 3)
    ∧ executeWithRetry
        (fun _ => .error { responseStatus := some 404 } :
          Nat → Except JsError Nat)
        (fun _ => 0) (fun _ => 0) "MusicBrainz" {} =
      (.error (createHttpException { responseStatus := some 404 }
        "MusicBrainz"), 1) :=
  ⟨retry_invocation_counts.1 Nat
      (fun k => if k = 3 then .ok 7 else .error { code := some "ECONNRESET" })
      (fun _ => 0) (fun _ => 0) "MusicBrainz"
      { code := some "ECONNRESET" } { code := some "ECONNRESET" } 7
      rfl rfl rfl (by decide) (by decide) le_rfl le_rfl
      (by decide) (by decide),
   retry_invocation_counts.2 Nat
      (fun _ => .error { responseStatus := some 404 })
      (fun _ => 0) (fun _ => 0) "MusicBrainz"
      { responseStatus := some 404 } rfl (by decide)⟩

/-- The jittered-then-capped delay of the source equals the capped base
adjusted by a multiplicative factor within plus-or-minus 10 percent. -/
theorem delay_eps (d0 : ℚ) (hd0 : 1000 ≤ d0) (u : ℚ) (hu0 : 0 ≤ u)
    (hu1 : u < 1) :
    ∃ ε : ℚ, -(1 / 10) ≤ ε ∧ ε ≤ 1 / 10 ∧
      min (d0 + u * d0 * (1 / 10)) 10000 = min d0 10000 * (1 + ε) := by
  have hd0pos : (0 : ℚ) < d0 := by linarith
  have hjit : 0 ≤ u * d0 * (1 / 10) :=
    mul_nonneg (mul_nonneg hu0 hd0pos.le) (by norm_num)
  have hd1l : d0 ≤ d0 + u * d0 * (1 / 10) := by linarith
  have hd1u : d0 + u * d0 * (1 / 10) ≤ d0 * (11 / 10) := by nlinarith
  have hb1000 : (1000 : ℚ) ≤ min d0 10000 := le_min hd0 (by norm_num)
  have hbpos : (0 : ℚ) < min d0 10000 := by linarith
  have hbd2 : min d0 10000 ≤ min (d0 + u * d0 * (1 / 10)) 10000 :=
    min_le_min hd1l le_rfl
  have hd2u : min (d0 + u * d0 * (1 / 10)) 10000 ≤ min d0 10000 * (11 / 10) := by
    rcases le_total d0 10000 with h | h
    · have hb : min d0 10000 = d0 := min_eq_left h
      calc min (d0 + u * d0 * (1 / 10)) 10000 ≤ d0 + u * d0 * (1 / 10) :=
            min_le_left _ _
        _ ≤ d0 * (11 / 10) := hd1u
        _ = min d0 10000 * (11 / 10) := by rw [hb]
    · have hb : min d0 10000 = 10000 := min_eq_right h
      calc min (d0 + u * d0 * (1 / 10)) 10000 ≤ 10000 := min_le_right _ _
        _ = min d0 10000 := hb.symm
        _ ≤ min d0 10000 * (11 / 10) :=
            le_mul_of_one_le_right hbpos.le (by norm_num)
  refine ⟨min (d0 + u * d0 * (1 / 10)) 10000 / min d0 10000 - 1, ?_, ?_, ?_⟩
  · have h1 : (1 : ℚ) ≤ min (d0 + u * d0 * (1 / 10)) 10000 / min d0 10000 :=
      (one_le_div hbpos).mpr hbd2
    linarith
  · have h2 : min (d0 + u * d0 * (1 / 10)) 10000 / min d0 10000 ≤ 11 / 10 :=
      (div_le_iff₀ hbpos).mpr (by linarith)
    linarith
  · have hone : 1 + (min (d0 + u * d0 * (1 / 10)) 10000 / min d0 10000 - 1)
        = min (d0 + u * d0 * (1 / 10)) 10000 / min d0 10000 := by ring
    rw [hone]
    field_simp

/-- Claim C6: for every retry attempt k with 1 ≤ k and jitter sample in
[0, 1), the computed backoff delay equals min(10000, 1000 * 2 ^ (k - 1))
adjusted by a jitter factor within plus-or-minus 10 percent and clamped to
the remaining budget (the integer remaining duration floored at 0 when the
jittered delay exceeds it); and when the remaining budget is ≤ 0 the
computed delay is 0, so executeWithRetry raises immediately without
sleeping. -/
theorem calculateDelay_formula (attempt : Nat) (remaining : Int) (u : ℚ)
    (_hk : 1 ≤ attempt) (hu0 : 0 ≤ u) (hu1 : u < 1) :
    (remaining ≤ 0 → calculateDelay attempt remaining u = 0)
    ∧ (∃ ε : ℚ, -(1 / 10) ≤ ε ∧ ε ≤ 1 / 10 ∧
        calculateDelay attempt remaining u =
          (if (remaining : ℚ) <
              min ((1000 : ℚ) * 2 ^ (attempt - 1)) 10000 * (1 + ε)
           then max 0 remaining
           else ⌊min ((1000 : ℚ) * 2 ^ (attempt - 1)) 10000 * (1 + ε)⌋))
    ∧ (∀ (α : Type) (op : Nat → Except JsError α) (elapsed : Nat → Int)
        (jit : Nat → ℚ) (mA : Nat) (mD : Int) (svc : String) (fuel : Nat)
        (e : JsError),
        op attempt = .error e → isRetryableError e = true →
        (attempt == mA) = false → jit attempt = u →
        mD - elapsed attempt = remaining → remaining ≤ 0 →
        executeFrom op elapsed jit mA mD svc attempt (fuel + 1) =
          (.error (createHttpException e svc), attempt)) := by
  have h2 : (1 : ℚ) ≤ 2 ^ (attempt - 1) := by
    simpa using
      pow_le_pow_right₀ (by norm_num : (1 : ℚ) ≤ 2) (Nat.zero_le (attempt - 1))
  have hd0 : (1000 : ℚ) ≤ 1000 * 2 ^ (attempt - 1) :=
    le_mul_of_one_le_right (by norm_num) h2
  have hcalc : calculateDelay attempt remaining u =
      (if (remaining : ℚ) <
          min (1000 * 2 ^ (attempt - 1)
            + u * (1000 * 2 ^ (attempt - 1)) * (1 / 10)) 10000
       then max 0 remaining
       else ⌊min (1000 * 2 ^ (attempt - 1)
            + u * (1000 * 2 ^ (attempt - 1)) * (1 / 10)) 10000⌋) := rfl
  obtain ⟨ε, hε1, hε2, hεeq⟩ :=
    delay_eps (1000 * 2 ^ (attempt - 1)) hd0 u hu0 hu1
  have hzero : remaining ≤ 0 → calculateDelay attempt remaining u = 0 := by
    intro hr0
    have hjit : 0 ≤ u * (1000 * 2 ^ (attempt - 1)) * (1 / 10) :=
      mul_nonneg (mul_nonneg hu0 (by linarith)) (by norm_num)
    have hd2 : (0 : ℚ) <
        min (1000 * 2 ^ (attempt - 1)
          + u * (1000 * 2 ^ (attempt - 1)) * (1 / 10)) 10000 :=
      lt_min (by linarith) (by norm_num)
    have hrq : (remaining : ℚ) ≤ 0 := by exact_mod_cast hr0
    rw [hcalc, if_pos (lt_of_le_of_lt hrq hd2)]
    omega
  refine ⟨hzero, ⟨ε, hε1, hε2, by rw [hcalc, hεeq]⟩, ?_⟩
  intro α op elapsed jit mA mD svc fuel e hop hre hne hju hrem hr0
  have hz : calculateDelay attempt (mD - elapsed attempt) (jit attempt) = 0 := by
    rw [hju, hrem]
    exact hzero hr0
  simp [executeFrom, hop, hre, hne, hz]

/-- Witness for C6 at concrete inputs: attempt 1 with 5000 ms remaining and
jitter sample one half, and attempt 1 with an exhausted budget where the
loop raises the classified failure after one invocation. -/
theorem calculateDelay_formula_witness :
    (∃ ε : ℚ, -(1 / 10) ≤ ε ∧ ε ≤ 1 / 10 ∧
        calculateDelay 1 5000 (1 / 2) =
          (if ((5000 : Int) : ℚ) <
              min ((1000 : ℚ) * 2 ^ (1 - 1)) 10000 * (1 + ε)
           then max 0 5000
           else ⌊min ((1000 : ℚ) * 2 ^ (1 - 1)) 10000 * (1 + ε)⌋))
    ∧ calculateDelay 1 0 (1 / 2) = 0
    ∧ executeFrom
        (fun _ => (.error { code := some "ECONNRESET" } : Except JsError Nat))
        (fun _ => 30000) (fun _ => 1 / 2) 3 30000 "MusicBrainz" 1 3 =
      (.error (createHttpException { code := some "ECONNRESET" }
        "MusicBrainz"), 1) :=
  ⟨(calculateDelay_formula 1 5000 (1 / 2) le_rfl (by norm_num)
      (by norm_num)).2.1,
   (calculateDelay_formula 1 0 (1 / 2) le_rfl (by norm_num)
      (by norm_num)).1 le_rfl,
   (calculateDelay_formula 1 0 (1 / 2) le_rfl (by norm_num)
      (by norm_num)).2.2 Nat
     (fun _ => .error { code := some "ECONNRESET" }) (fun _ => 30000)
     (fun _ => 1 / 2) 3 30000 "MusicBrainz" 2 { code := some "ECONNRESET" }
     rfl (by decide) rfl rfl (by decide) le_rfl⟩

/-- Counterexample to claim C7 as stated: a connection-reset transport
failure (code ECONNRESET, no HTTP status) is classified with status 500,
not the claimed 503. -/
theorem createHttpException_reset_not_503 :
    (createHttpException { code := some "ECONNRESET" } "MusicBrainz").statusCode
      = 500
    ∧ ¬ (createHttpException { code := some "ECONNRESET" }
          "MusicBrainz").statusCode = 503 := by
  constructor
  · rfl
  · decide

/-- Claim C7 (amended): the classified failure preserves the original
HTTP-style status when the error carries one; otherwise only the
connection-refused, timed-out and host-unreachable transport codes map to
503, every other error (connection reset, network unreachable and
name-not-found included) maps to 500; and the failure always carries the
service label. -/
theorem createHttpException_status (e : JsError) (svc : String) :
    (∀ s, e.responseStatus = some s →
        (createHttpException e svc).statusCode = s)
    ∧ (e.responseStatus = none →
        (e.code = some "ECONNREFUSED" ∨ e.code = some "ETIMEDOUT"
          ∨ e.code = some "EHOSTUNREACH") →
        (createHttpException e svc).statusCode = 503)
    ∧ (e.responseStatus = none →
        e.code ≠ some "ECONNREFUSED" → e.code ≠ some "ETIMEDOUT" →
        e.code ≠ some "EHOSTUNREACH" →
        (createHttpException e svc).statusCode = 500)
    ∧ (createHttpException e svc).service = svc
    ∧ (createHttpException e svc).message = "Failed to connect to " ++ svc := by
  refine ⟨?_, ?_, ?_, rfl, rfl⟩
  · intro s hs
    simp [createHttpException, hs]
  · intro hn hc
    rcases hc with hc | hc | hc <;> simp [createHttpException, hn, hc]
  · intro hn hc1 hc2 hc3
    simp [createHttpException, hn, hc1, hc2, hc3]

/-- Witness for the amended C7 at concrete inputs: a 429 response preserves
429, ECONNREFUSED maps to 503, ENOTFOUND maps to 500. -/
theorem createHttpException_status_witness :
    (createHttpException { responseStatus := some 429 }
        "MusicBrainz").statusCode = 429
    ∧ (createHttpException { code := some "ECONNREFUSED" }
        "MusicBrainz").statusCode = 503
    ∧ (createHttpException { code := some "ENOTFOUND" }
        "MusicBrainz").statusCode = 500
    ∧ (createHttpException { code := some "ENOTFOUND" }
        "MusicBrainz").service = "MusicBrainz" :=
  ⟨(createHttpException_status { responseStatus := some 429 }
      "MusicBrainz").1 429 rfl,
   (createHttpException_status { code := some "ECONNREFUSED" }
      "MusicBrainz").2.1 rfl (Or.inl rfl),
   (createHttpException_status { code := some "ENOTFOUND" }
      "MusicBrainz").2.2.1 rfl (by decide) (by decide) (by decide),
   (createHttpException_status { code := some "ENOTFOUND" }
      "MusicBrainz").2.2.2.1⟩

/-- Claim C8: no cache failure is ever propagated to the caller: a failing
cache read falls through to the repository, a failing cache write after a
repository read still returns the repository result, the post-write cache
invalidation never fails the write, and invalidateRecordsCache itself always
resolves. -/
theorem cache_failures_swallowed :
    (∀ (α : Type) (e : CacheFailure) (r : α) (s : Except CacheFailure Unit),
        findAllWithCache (.error e) (.ok r) s = .ok r)
    ∧ (∀ (α : Type) (e : CacheFailure) (r : α),
        findAllWithCache (.ok none) (.ok r) (.error e) = .ok r)
    ∧ (∀ (α : Type) (v : α) (inv : Except CacheFailure Unit),
        writeThenInvalidate (.ok v) inv = .ok v)
    ∧ (∀ s : Except CacheFailure Unit, invalidateRecordsCache s = .ok ()) := by
  refine ⟨fun α e r s => rfl, fun α e r => rfl, fun α v inv => rfl,
    fun s => ?_⟩
  cases s <;> rfl

/-- Counterexample to claim C4 as stated: on record creation, a provider
failure with status 404 is wrapped by the create catch clause as
InternalServerErrorException, so the surfaced status is 500, not the
provider's 404. -/
theorem create_provider_404_wrapped_as_500 :
    (create none (.httpFailure 404)
        { sampleRecord with mbid := some "bad-mbid" }).result =
      .error (.internal
        "Failed to create record: Failed to fetch data from MusicBrainz. Try again later.")
    ∧ statusOfError (.internal
        "Failed to create record: Failed to fetch data from MusicBrainz. Try again later.")
        = 500
    ∧ ¬ (500 : Nat) = 404 := by
  refine ⟨rfl, rfl, by decide⟩

/-- Claim C4 (amended): an enrichment-fetch failure makes the whole
operation fail with nothing created or updated; on update the surfaced
error preserves the provider's HTTP-style status, while on create the
provider error is wrapped as Internal (500) regardless of the provider's
status. -/
theorem enrichment_failure_hard_failure (r d : RecordDoc) (dto : UpdateDto)
    (s : Nat) (m : String) :
    (dto.mbid = some m → r.mbid ≠ some m →
      (update (some r) (.httpFailure s) dto).result =
        .error (.httpError s "Failed to fetch data from MusicBrainz")
      ∧ (update (some r) (.httpFailure s) dto).saved = [])
    ∧ (d.mbid = some m →
      (create none (.httpFailure s) d).result =
        .error (.internal
          "Failed to create record: Failed to fetch data from MusicBrainz. Try again later.")
      ∧ (create none (.httpFailure s) d).persisted = [])
    ∧ statusOfError (.httpError s "Failed to fetch data from MusicBrainz")
        = s := by
  refine ⟨?_, ?_, rfl⟩
  · intro hm hne
    constructor <;> simp [update, hm, hne]
  · intro hm
    constructor <;>
      simp [create, attachProviderDataToRecord, createWrapError, hm]

/-- Witness for the amended C4 at concrete inputs: provider status 404
during update of a record without an mbid, and during creation with an
mbid. -/
theorem enrichment_failure_hard_failure_witness :
    ((update (some sampleRecord) (.httpFailure 404)
        { mbid := some "63823c15-6abc-473e-9fad-d0d0fa983b34" }).result =
      .error (.httpError 404 "Failed to fetch data from MusicBrainz")
      ∧ (update (some sampleRecord) (.httpFailure 404)
          { mbid := some "63823c15-6abc-473e-9fad-d0d0fa983b34" }).saved = [])
    ∧ ((create none (.httpFailure 404)
        { sampleRecord with mbid := some "bad-mbid" }).result =
      .error (.internal
        "Failed to create record: Failed to fetch data from MusicBrainz. Try again later.")
      ∧ (create none (.httpFailure 404)
          { sampleRecord with mbid := some "bad-mbid" }).persisted = []) :=
  ⟨(enrichment_failure_hard_failure sampleRecord
      { sampleRecord with mbid := some "bad-mbid" }
      { mbid := some "63823c15-6abc-473e-9fad-d0d0fa983b34" } 404
      "63823c15-6abc-473e-9fad-d0d0fa983b34").1 rfl (by decide),
   (enrichment_failure_hard_failure sampleRecord
      { sampleRecord with mbid := some "bad-mbid" }
      { mbid := some "bad-mbid" } 404 "bad-mbid").2.1 rfl⟩

end BrokenRecordStore
